import Mathlib

/-!
Verification of the messaging core of a creator-subscription platform
(`backend/server.py`): conversations, encrypted direct messages,
pay-per-view unlock records, auto-destruct expiry, and the access-policy
engine.  Python route handlers are embedded as pure Lean functions over an
explicit database state; MongoDB `find_one` becomes `List.find?` over
insertion-ordered lists, `insert_one` appends, `update_one`/`update_many`
map over the list.  Timestamps are naturals, monetary amounts rationals,
and fresh UUIDs are passed as explicit arguments.
-/

namespace Platform

/-- A model of the strings that flow through the crypto envelope.  The
external Fernet cipher (an authenticated symmetric scheme from the
`cryptography` library) is modelled symbolically: a well-formed token
(`tok key plaintext`) records the key it was produced under and decrypts
only under that key; every other string (`raw s`) is opaque text on which
decryption fails.  Base64 transport encoding is folded into the token. -/
inductive MsgStr where
  | raw : String → MsgStr
  | tok : String → String → MsgStr
deriving DecidableEq, Repr

/-- The process-wide symmetric key (`ENCRYPTION_KEY` environment constant
in `server.py`); its concrete value is irrelevant, only that it is a fixed
non-empty string. -/
def ENCRYPTION_KEY : String := "fernet-master-key"

/-- `encrypt_message` (server.py:348): encrypts with the process key and
returns the ciphertext together with that key. -/
def encrypt_message (content : String) : MsgStr × String :=
  (MsgStr.tok ENCRYPTION_KEY content, ENCRYPTION_KEY)

/-- `decrypt_message` (server.py:354): attempts Fernet decryption under
`key`; the bare `except` clause means every failure (wrong key, corrupted
or non-token input) yields the sentinel string instead of an exception. -/
def decrypt_message (encrypted_content : MsgStr) (key : String) : String :=
  match encrypted_content with
  | MsgStr.tok k p => if k == key then p else "[Message could not be decrypted]"
  | MsgStr.raw _ => "[Message could not be decrypted]"

/-- Python truthiness of an optional string (`None` and `""` are falsy). -/
def strTruthy : Option String → Bool
  | none => false
  | some s => !(s == "")

/-- Python truthiness of an optional stored content string: `None` and the
empty raw string are falsy, tokens (non-empty base64 text) are truthy. -/
def contentTruthy : Option MsgStr → Bool
  | none => false
  | some (MsgStr.raw s) => !(s == "")
  | some (MsgStr.tok _ _) => true

/-- Python truthiness of an optional natural (`None` and `0` are falsy),
as used for `auto_destruct_minutes`. -/
def natTruthy : Option Nat → Bool
  | none => false
  | some n => !(n == 0)

/-- `User` model (server.py:89) restricted to the fields the messaging
core reads: the id and the creator flag. -/
structure User where
  id : String
  is_creator : Bool
deriving DecidableEq, Repr

/-- `Creator` profile (server.py:113) restricted to the fields the
messaging core reads. -/
structure Creator where
  id : String
  user_id : String
  follower_count : Nat
deriving DecidableEq, Repr

/-- `ConversationSettings` (server.py:301). -/
structure ConversationSettings where
  id : String
  creator_id : String
  allow_messages : Bool
  require_subscription : Bool
  message_price : Option Rat
  blocked_users : List String
  vip_users : List String
  max_messages_per_day : Option Nat
deriving DecidableEq, Repr

/-- `Subscription` (server.py:236) restricted to the fields read here. -/
structure Subscription where
  id : String
  user_id : String
  creator_id : String
  plan_type : String
  status : String
  expires_at : Option Nat
deriving DecidableEq, Repr

/-- `Conversation` (server.py:259). -/
structure Conversation where
  id : String
  creator_id : String
  fan_id : String
  is_blocked : Bool
  blocked_by : Option String
  last_message_at : Option Nat
  created_at : Nat
deriving DecidableEq, Repr

/-- `Message` (server.py:268).  `content` holds either a Fernet token or
plain text (see `MsgStr`); an absent/deleted `encryption_key` dict entry
and a `None` value are both modelled as `none`. -/
structure Message where
  id : String
  conversation_id : String
  sender_id : String
  sender_type : String
  message_type : String
  content : Option MsgStr
  file_path : Option String
  file_type : Option String
  file_size : Option Nat
  is_ppv : Bool
  ppv_price : Option Rat
  ppv_preview : Option String
  is_tip : Bool
  tip_amount : Option Rat
  is_read : Bool
  is_encrypted : Bool
  encryption_key : Option String
  auto_destruct_at : Option Nat
  created_at : Nat
  read_at : Option Nat
deriving DecidableEq, Repr

/-- `MessageCreate` request body (server.py:290). -/
structure MessageCreate where
  conversation_id : String
  message_type : String
  content : Option String
  is_ppv : Bool
  ppv_price : Option Rat
  ppv_preview : Option String
  is_tip : Bool
  tip_amount : Option Rat
  auto_destruct_minutes : Option Nat
deriving DecidableEq, Repr

/-- `MessagePayment` (server.py:314). -/
structure MessagePayment where
  id : String
  message_id : String
  payer_id : String
  amount : Rat
  payment_status : String
  stripe_session_id : Option String
  created_at : Nat
  paid_at : Option Nat
deriving DecidableEq, Repr

/-- `PaymentTransaction` (server.py:246) restricted to the fields the
payment-confirmation paths read; of the free-form `metadata` dict only the
`plan_type` entry is ever consumed by those paths. -/
structure PaymentTransaction where
  id : String
  user_id : Option String
  creator_id : Option String
  amount : Rat
  transaction_type : String
  stripe_session_id : String
  payment_status : String
  metadata_plan_type : Option String
deriving DecidableEq, Repr

/-- An uploaded file: name, declared MIME type and raw bytes. -/
structure FileUpload where
  filename : String
  content_type : String
  data : List Nat
deriving DecidableEq, Repr

/-- The document store: one insertion-ordered list per MongoDB collection,
plus the GridFS blob store as `(file id, file)` pairs. -/
structure DB where
  users : List User
  creators : List Creator
  conversation_settings : List ConversationSettings
  subscriptions : List Subscription
  conversations : List Conversation
  messages : List Message
  message_payments : List MessagePayment
  payment_transactions : List PaymentTransaction
  blobs : List (String × FileUpload)
deriving DecidableEq, Repr

/-- `HTTPException` outcomes raised by the embedded handlers.
`internalError` stands for an unhandled Python exception (HTTP 500). -/
inductive Err where
  | notFound (detail : String)
  | forbidden (detail : String)
  | badRequest (detail : String)
  | paymentRequired (detail : String)
  | internalError
deriving DecidableEq, Repr

/-- `can_send_message` (server.py:381): the access-policy check run before
a send or a conversation creation. -/
def can_send_message (db : DB) (sender_id recipient_id : String) : Bool × String :=
  let conversation := db.conversations.find? (fun c =>
    (c.creator_id == recipient_id && c.fan_id == sender_id) ||
    (c.creator_id == sender_id && c.fan_id == recipient_id))
  if (conversation.map (·.is_blocked)).getD false then
    (false, "Conversation is blocked")
  else
    match db.creators.find? (fun c => c.user_id == recipient_id) with
    | none => (true, "OK")
    | some creator =>
      match db.conversation_settings.find? (fun s => s.creator_id == creator.id) with
      | none => (true, "OK")
      | some settings =>
        if !settings.allow_messages then
          (false, "Creator is not accepting messages")
        else if settings.blocked_users.contains sender_id then
          (false, "You are blocked by this creator")
        else if settings.require_subscription &&
            (db.subscriptions.find? (fun s =>
              s.user_id == sender_id && s.creator_id == creator.id &&
              s.status == "active")).isNone then
          (false, "Subscription required to send messages")
        else
          (true, "OK")

/-- The recipient's creator settings, if the recipient has a creator
profile with a settings record (spec §4.2's "`ConversationSettings`" of
the recipient creator). -/
def recipientSettings (db : DB) (recipient_id : String) : Option ConversationSettings :=
  match db.creators.find? (fun c => c.user_id == recipient_id) with
  | none => none
  | some creator => db.conversation_settings.find? (fun s => s.creator_id == creator.id)

/-- The active subscription of `sender_id` to the recipient's creator
profile, if any (spec §4.2 rule 4). -/
def activeSubscription (db : DB) (sender_id recipient_id : String) : Option Subscription :=
  match db.creators.find? (fun c => c.user_id == recipient_id) with
  | none => none
  | some creator => db.subscriptions.find? (fun s =>
      s.user_id == sender_id && s.creator_id == creator.id && s.status == "active")

/-- `canSend` as the spec states it (§4.2): a first-applicable-rule
cascade — blocked conversation, then messaging disabled, then sender in
the creator's block list, then subscription required, else allow.  Reason
strings stand in for the spec's enum: `ConversationBlocked`,
`MessagingDisabled`, `SenderBlocked`, `SubscriptionRequired`. -/
def canSendSpec (db : DB) (sender_id recipient_id : String) : Bool × String :=
  if ((db.conversations.find? (fun c =>
      (c.creator_id == recipient_id && c.fan_id == sender_id) ||
      (c.creator_id == sender_id && c.fan_id == recipient_id))).map
        (·.is_blocked)).getD false then
    (false, "Conversation is blocked")
  else if ((recipientSettings db recipient_id).map (fun s => !s.allow_messages)).getD false then
    (false, "Creator is not accepting messages")
  else if ((recipientSettings db recipient_id).map
      (fun s => s.blocked_users.contains sender_id)).getD false then
    (false, "You are blocked by this creator")
  else if ((recipientSettings db recipient_id).map (·.require_subscription)).getD false &&
      (activeSubscription db sender_id recipient_id).isNone then
    (false, "Subscription required to send messages")
  else
    (true, "OK")

/-- `create_conversation` (server.py:1445): creator/fan roles follow the
recipient's `is_creator` flag; returns the existing conversation for the
resulting `(creator_id, fan_id)` pair if present, else runs the policy
check and inserts a fresh one.  The returned Bool is the response's
`exists` flag. -/
def create_conversation (db : DB) (current_user : User) (recipient_id : String)
    (fresh_id : String) (now : Nat) : Except Err (DB × String × Bool) :=
  if recipient_id == current_user.id then
    .error (.badRequest "Cannot create conversation with yourself")
  else
    match db.users.find? (fun u => u.id == recipient_id) with
    | none => .error (.notFound "Recipient not found")
    | some recipient =>
      match db.conversations.find? (fun c =>
          c.creator_id == (if recipient.is_creator then recipient_id
            else current_user.id) &&
          c.fan_id == (if recipient.is_creator then current_user.id
            else recipient_id)) with
      | some existing_conv => .ok (db, existing_conv.id, true)
      | none =>
        if !(can_send_message db current_user.id recipient_id).1 then
          .error (.forbidden (can_send_message db current_user.id recipient_id).2)
        else
          .ok ({ db with conversations := db.conversations ++
                  [{ id := fresh_id,
                     creator_id := if recipient.is_creator then recipient_id
                       else current_user.id,
                     fan_id := if recipient.is_creator then current_user.id
                       else recipient_id,
                     is_blocked := false, blocked_by := none,
                     last_message_at := none, created_at := now }] },
               fresh_id, false)

/-- The per-message body of the `listMessages` decrypt loop
(server.py:1508-1519): decrypt the content when the message is flagged
encrypted with a truthy key and truthy content, then delete the
`encryption_key` entry from the response dict. -/
def redactMessage (m : Message) : Message :=
  let content :=
    if m.is_encrypted && strTruthy m.encryption_key && contentTruthy m.content then
      m.content.map (fun c => MsgStr.raw (decrypt_message c (m.encryption_key.getD "")))
    else m.content
  { m with content := content, encryption_key := none }

/-- Descending insertion by `created_at` (helper for the Mongo
`.sort("created_at", -1)` in server.py:1506). -/
def insertByCreatedDesc (m : Message) : List Message → List Message
  | [] => [m]
  | x :: xs =>
    if Nat.blt x.created_at m.created_at then m :: x :: xs
    else x :: insertByCreatedDesc m xs

/-- Newest-first ordering by `created_at` (the Mongo
`.sort("created_at", -1)` in server.py:1506). -/
def sortNewestFirst : List Message → List Message
  | [] => []
  | x :: xs => insertByCreatedDesc x (sortNewestFirst xs)

/-- `get_conversation_messages` (server.py:1487): participant-gated fetch,
newest-first pagination, server-side decryption and key stripping, a
mark-as-read sweep over the requester's unread incoming messages, and a
final reversal to oldest-first.  Returns the response list and the
updated store. -/
def get_conversation_messages (db : DB) (conversation_id : String) (skip limit : Nat)
    (current_user : User) (now : Nat) : Except Err (List Message × DB) :=
  match db.conversations.find? (fun c => c.id == conversation_id) with
  | none => .error (.notFound "Conversation not found")
  | some conversation =>
    if !(current_user.id == conversation.creator_id ||
         current_user.id == conversation.fan_id) then
      .error (.forbidden "Access denied")
    else
      .ok (((((sortNewestFirst (db.messages.filter
              (fun m => m.conversation_id == conversation_id))).drop skip).take
                limit).map redactMessage).reverse,
           { db with messages := db.messages.map (fun m =>
              if m.conversation_id == conversation_id &&
                 !(m.sender_id == current_user.id) && !m.is_read then
                { m with is_read := true, read_at := some now }
              else m) })

/-- The `Message` record built by `send_message` (server.py:1567-1597):
non-empty text content is encrypted with the process key, empty or absent
content passes through, and `auto_destruct_at` is derived from the
requested minutes. -/
def builtMessage (current_user : User) (conversation : Conversation)
    (md : MessageCreate) (fresh_id : String) (now : Nat) : Message :=
  let sender_type := if current_user.id == conversation.creator_id
    then "creator" else "fan"
  let enc : Option MsgStr × Option String × Bool :=
    if strTruthy md.content then
      let e := encrypt_message (md.content.getD "")
      (some e.1, some e.2, true)
    else (md.content.map MsgStr.raw, none, false)
  let auto_destruct_at :=
    if natTruthy md.auto_destruct_minutes then
      some (now + 60 * md.auto_destruct_minutes.getD 0)
    else none
  { id := fresh_id, conversation_id := md.conversation_id,
    sender_id := current_user.id, sender_type := sender_type,
    message_type := md.message_type, content := enc.1,
    file_path := none, file_type := none, file_size := none,
    is_ppv := md.is_ppv, ppv_price := md.ppv_price,
    ppv_preview := md.ppv_preview, is_tip := md.is_tip,
    tip_amount := md.tip_amount, is_read := false,
    is_encrypted := enc.2.2, encryption_key := enc.2.1,
    auto_destruct_at := auto_destruct_at, created_at := now,
    read_at := none }

/-- The realtime `new_message` payload built by `send_message`
(server.py:1607-1614): the `encryption_key` dict entry is deleted when
truthy and the content is decrypted for delivery. -/
def sendPayload (message : Message) : Message :=
  let payload0 := if strTruthy message.encryption_key then
      { message with encryption_key := none }
    else message
  if message.is_encrypted && strTruthy message.encryption_key then
    { payload0 with content := message.content.map (fun c =>
        MsgStr.raw (decrypt_message c (message.encryption_key.getD ""))) }
  else payload0

/-- Persisting a new message: append it and stamp the conversation's
`last_message_at` (server.py:1599-1605, also 1697-1703). -/
def persistMessage (db : DB) (conversation_id : String) (message : Message)
    (now : Nat) : DB :=
  { db with
    messages := db.messages ++ [message],
    conversations := db.conversations.map (fun c =>
      if c.id == conversation_id then { c with last_message_at := some now }
      else c) }

/-- `send_message` (server.py:1538): participant and blocked checks, the
policy re-check, encryption of non-empty text content, persistence, the
`last_message_at` update, and construction of the realtime payload.
Returns the updated store, the broadcast payload, and the new message
id. -/
def send_message (db : DB) (current_user : User) (md : MessageCreate)
    (fresh_id : String) (now : Nat) : Except Err (DB × Message × String) :=
  match db.conversations.find? (fun c => c.id == md.conversation_id) with
  | none => .error (.notFound "Conversation not found")
  | some conversation =>
    if !(current_user.id == conversation.creator_id ||
         current_user.id == conversation.fan_id) then
      .error (.forbidden "Access denied")
    else if conversation.is_blocked then
      .error (.forbidden "Conversation is blocked")
    else
      let recipient_id := if current_user.id == conversation.creator_id
        then conversation.fan_id else conversation.creator_id
      let cs := can_send_message db current_user.id recipient_id
      if !cs.1 then
        .error (.forbidden cs.2)
      else
        let message := builtMessage current_user conversation md fresh_id now
        .ok (persistMessage db md.conversation_id message now,
             sendPayload message, fresh_id)

/-- The upload endpoint's file-type whitelist (server.py:1648). -/
def allowed_file_type (message_type content_type : String) : Bool :=
  (message_type == "image" &&
    (content_type == "image/jpeg" || content_type == "image/png" ||
     content_type == "image/gif" || content_type == "image/webp")) ||
  (message_type == "video" &&
    (content_type == "video/mp4" || content_type == "video/quicktime" ||
     content_type == "video/x-msvideo")) ||
  (message_type == "audio" &&
    (content_type == "audio/mpeg" || content_type == "audio/wav" ||
     content_type == "audio/ogg"))

/-- The `Message` record built by `upload_message_file`
(server.py:1683-1695): media metadata only — no text content, no
encryption, the blob reference as `file_path`. -/
def builtUploadMessage (current_user : User) (conversation : Conversation)
    (conversation_id message_type : String) (is_ppv : Bool)
    (ppv_price : Option Rat) (ppv_preview : Option String)
    (auto_destruct_minutes : Option Nat) (file : FileUpload)
    (fresh_file_id fresh_msg_id : String) (now : Nat) : Message :=
  let sender_type := if current_user.id == conversation.creator_id
    then "creator" else "fan"
  let auto_destruct_at :=
    if natTruthy auto_destruct_minutes then
      some (now + 60 * auto_destruct_minutes.getD 0)
    else none
  { id := fresh_msg_id, conversation_id := conversation_id,
    sender_id := current_user.id, sender_type := sender_type,
    message_type := message_type, content := none,
    file_path := some fresh_file_id, file_type := some file.content_type,
    file_size := some file.data.length, is_ppv := is_ppv,
    ppv_price := ppv_price, ppv_preview := ppv_preview,
    is_tip := false, tip_amount := none, is_read := false,
    is_encrypted := false, encryption_key := none,
    auto_destruct_at := auto_destruct_at, created_at := now,
    read_at := none }

/-- `upload_message_file` (server.py:1627): participant check, file-type
and size validation, blob storage, message persistence and the
`last_message_at` update.  The realtime payload is `message.dict()`
verbatim.  Returns the updated store, the broadcast payload, and the new
message id. -/
def upload_message_file (db : DB) (current_user : User)
    (conversation_id message_type : String) (is_ppv : Bool)
    (ppv_price : Option Rat) (ppv_preview : Option String)
    (auto_destruct_minutes : Option Nat) (file : FileUpload)
    (fresh_file_id fresh_msg_id : String) (now : Nat) :
    Except Err (DB × Message × String) :=
  match db.conversations.find? (fun c => c.id == conversation_id) with
  | none => .error (.notFound "Conversation not found")
  | some conversation =>
    if !(current_user.id == conversation.creator_id ||
         current_user.id == conversation.fan_id) then
      .error (.forbidden "Access denied")
    else if !(allowed_file_type message_type file.content_type) then
      .error (.badRequest "Invalid file type for message type")
    else if file.data.length > 50 * 1024 * 1024 then
      .error (.badRequest "File too large (max 50MB)")
    else
      let message := builtUploadMessage current_user conversation conversation_id
        message_type is_ppv ppv_price ppv_preview auto_destruct_minutes file
        fresh_file_id fresh_msg_id now
      .ok (persistMessage { db with blobs := db.blobs ++ [(fresh_file_id, file)] }
             conversation_id message now,
           message, fresh_msg_id)

/-- `get_message_file` (server.py:1716): participant check, the PPV paid
gate for non-senders, then the GridFS fetch (a missing `file_path` or
blob raises inside the `try` and surfaces as 404).  A message whose
conversation record is missing would crash the unguarded subscript
(`internalError`). -/
def get_message_file (db : DB) (message_id : String) (current_user : User) :
    Except Err FileUpload :=
  match db.messages.find? (fun m => m.id == message_id) with
  | none => .error (.notFound "Message not found")
  | some message =>
    match db.conversations.find? (fun c => c.id == message.conversation_id) with
    | none => .error .internalError
    | some conversation =>
      if !(current_user.id == conversation.creator_id ||
           current_user.id == conversation.fan_id) then
        .error (.forbidden "Access denied")
      else if message.is_ppv && !(message.sender_id == current_user.id) &&
          (db.message_payments.find? (fun p =>
            p.message_id == message_id && p.payer_id == current_user.id &&
            p.payment_status == "paid")).isNone then
        .error (.paymentRequired "Payment required to view this content")
      else
        match message.file_path with
        | none => .error (.notFound "File not found")
        | some fp =>
          match db.blobs.find? (fun b => b.1 == fp) with
          | none => .error (.notFound "File not found")
          | some b => .ok b.2

/-- `process_successful_payment` (server.py:1346): only the
`subscription` transaction type has a handler — it inserts an active
subscription and bumps the creator's follower count; every other type
(tips, `message_ppv` unlocks) falls through with no store change. -/
def process_successful_payment (db : DB) (transaction : PaymentTransaction)
    (now : Nat) (fresh_sub_id : String) : DB :=
  if transaction.transaction_type == "subscription" then
    let subscription : Subscription :=
      { id := fresh_sub_id, user_id := transaction.user_id.getD "",
        creator_id := transaction.creator_id.getD "",
        plan_type := transaction.metadata_plan_type.getD "",
        status := "active", expires_at := some (now + 30 * 86400) }
    { db with
      subscriptions := db.subscriptions ++ [subscription],
      creators := db.creators.map (fun c =>
        if c.id == transaction.creator_id.getD "" then
          { c with follower_count := c.follower_count + 1 }
        else c) }
  else db

/-- `get_payment_status` (server.py:1318), the poll-side confirmation:
the external provider's reported status is the `provider_status`
argument.  Updates the `payment_transactions` record when the status
changed and runs `process_successful_payment` on a fresh transition to
`paid`.  Returns the updated store and the reported status. -/
def get_payment_status (db : DB) (session_id : String) (provider_status : String)
    (now : Nat) (fresh_sub_id : String) : Except Err (DB × String) :=
  match db.payment_transactions.find? (fun t => t.stripe_session_id == session_id) with
  | none => .error (.notFound "Transaction not found")
  | some transaction =>
    if !(provider_status == transaction.payment_status) then
      let db1 := { db with payment_transactions := db.payment_transactions.map (fun t =>
        if t.stripe_session_id == session_id then
          { t with payment_status := provider_status }
        else t) }
      if provider_status == "paid" && !(transaction.payment_status == "paid") then
        .ok (process_successful_payment db1 transaction now fresh_sub_id, provider_status)
      else
        .ok (db1, provider_status)
    else
      .ok (db, provider_status)

/-- `stripe_webhook` (server.py:1365), the callback-side confirmation:
`event_type`/`session_id` are the verified webhook's fields.  On a
completed-checkout event for a not-yet-paid transaction it marks the
transaction paid and runs `process_successful_payment`. -/
def stripe_webhook (db : DB) (event_type session_id : String)
    (now : Nat) (fresh_sub_id : String) : Except Err (DB × String) :=
  if event_type == "checkout.session.completed" then
    match db.payment_transactions.find? (fun t => t.stripe_session_id == session_id) with
    | none => .ok (db, "success")
    | some transaction =>
      if !(transaction.payment_status == "paid") then
        let db1 := { db with payment_transactions := db.payment_transactions.map (fun t =>
          if t.stripe_session_id == session_id then
            { t with payment_status := "paid" }
          else t) }
        .ok (process_successful_payment db1 transaction now fresh_sub_id, "success")
      else
        .ok (db, "success")
  else
    .ok (db, "success")

/-! ### Result projections used to state concrete evaluations -/

/-- Whether a messaging-route result is a success. -/
def sendOk (r : Except Err (DB × Message × String)) : Bool :=
  match r with
  | .ok _ => true
  | .error _ => false

/-- The message collection after a send/upload route, empty on error. -/
def sentMessages (r : Except Err (DB × Message × String)) : List Message :=
  match r with
  | .ok (db, _, _) => db.messages
  | .error _ => []

/-- The `message_payments` collection after a payment-confirmation route,
empty on error. -/
def paymentsAfter (r : Except Err (DB × String)) : List MessagePayment :=
  match r with
  | .ok (db, _) => db.message_payments
  | .error _ => []

/-- The oldest-first message list returned by `get_conversation_messages`,
empty on error. -/
def listedMessages (r : Except Err (List Message × DB)) : List Message :=
  match r with
  | .ok (msgs, _) => msgs
  | .error _ => []

/-- The error of a failed route result, if any. -/
def resultErr {α : Type} (r : Except Err α) : Option Err :=
  match r with
  | .ok _ => none
  | .error e => some e

/-! ### Concrete fixture states

Small stores used to evaluate the routes at specific inputs: a creator
`cr` and a fan `fan` sharing conversation `c1`, plus a pair of creators
for the conversation-creation scenario. -/

/-- A creator user. -/
def uCr : User := ⟨"cr", true⟩

/-- A fan user. -/
def uFan : User := ⟨"fan", false⟩

/-- The conversation between `cr` and `fan`, unblocked. -/
def conv1 : Conversation := ⟨"c1", "cr", "fan", false, none, none, 0⟩

/-- A small JPEG upload. -/
def file1 : FileUpload := ⟨"pic.jpg", "image/jpeg", [1, 2, 3]⟩

/-- A PPV image message from `cr` whose `auto_destruct_at` is the instant
5, long past at read time 1000. -/
def m1 : Message := ⟨"m1", "c1", "cr", "creator", "image", none, some "f1",
  some "image/jpeg", some 3, true, some 5, none, false, none, false, false,
  none, some 5, 1, none⟩

/-- The fan's unlock of `m1`, already `paid`. -/
def paidC1 : MessagePayment := ⟨"pp1", "m1", "fan", 5, "paid", some "sx", 0, some 2⟩

/-- Store for the expiry scenario: the expired message, its blob, and the
fan's completed unlock. -/
def dbC1 : DB := ⟨[uCr, uFan], [], [], [], [conv1], [m1], [paidC1], [],
  [("f1", file1)]⟩

/-- A pending PPV-unlock checkout transaction for session `s1`. -/
def tx1 : PaymentTransaction :=
  ⟨"t1", some "fan", some "cr", 5, "message_ppv", "s1", "pending", none⟩

/-- The pending `MessagePayment` record behind session `s1`. -/
def pay1 : MessagePayment := ⟨"p1", "m1", "fan", 5, "pending", some "s1", 0, none⟩

/-- Store for the unlock-confirmation scenario. -/
def dbC2 : DB := ⟨[uCr, uFan], [], [], [], [conv1], [m1], [pay1], [tx1], []⟩

/-- Two users who are both creators. -/
def uA : User := ⟨"alice", true⟩

/-- Two users who are both creators. -/
def uB : User := ⟨"bob", true⟩

/-- Store with two creator users and no conversations. -/
def dbC3 : DB := ⟨[uA, uB], [], [], [], [], [], [], [], []⟩

/-- The conversation between `cr` and `fan`, blocked by the creator. -/
def convB : Conversation := ⟨"c1", "cr", "fan", true, some "cr", none, 0⟩

/-- Store whose only conversation is blocked. -/
def dbC4 : DB := ⟨[uCr, uFan], [], [], [], [convB], [], [], [], []⟩

/-- A plain text send request for conversation `c1`. -/
def mdText : MessageCreate :=
  ⟨"c1", "text", some "hello", false, none, none, false, none, none⟩

/-- A PPV image message from `cr` priced at 5, with its blob on file. -/
def m5 : Message := ⟨"m5", "c1", "cr", "creator", "image", none, some "f1",
  some "image/jpeg", some 3, true, some 5, none, false, none, false, false,
  none, none, 1, none⟩

/-- Store for the PPV-gating scenario, without any payment. -/
def dbC5 : DB := ⟨[uCr, uFan], [], [], [], [conv1], [m5], [], [],
  [("f1", file1)]⟩

/-- A paid unlock record for `m5` by `fan`. -/
def paid5 : MessagePayment := ⟨"p5", "m5", "fan", 5, "paid", some "s5", 0, some 50⟩

/-- The PPV-gating store after `fan`'s unlock reached `paid`. -/
def dbC5p : DB := { dbC5 with message_payments := [paid5] }

/-- Store with the empty conversation `c1`, used for send scenarios. -/
def dbSend : DB := ⟨[uCr, uFan], [], [], [], [conv1], [], [], [], []⟩

/-- A text send request flagged PPV with no price at all. -/
def mdPPV : MessageCreate :=
  ⟨"c1", "text", some "secret", true, none, none, false, none, none⟩

/-! ### General lemmas about the embedded operations -/

instance {ε α : Type} [DecidableEq ε] [DecidableEq α] : DecidableEq (Except ε α) :=
  fun x y =>
    match x, y with
    | .ok a, .ok b =>
      if h : a = b then isTrue (by rw [h])
      else isFalse (fun hc => h (by injection hc))
    | .error a, .error b =>
      if h : a = b then isTrue (by rw [h])
      else isFalse (fun hc => h (by injection hc))
    | .ok _, .error _ => isFalse (fun hc => Except.noConfusion hc)
    | .error _, .ok _ => isFalse (fun hc => Except.noConfusion hc)

theorem strTruthy_eq_true {o : Option String} :
    strTruthy o = true ↔ ∃ s, o = some s ∧ s ≠ "" := by
  cases o with
  | none => simp [strTruthy]
  | some s => simp [strTruthy]

theorem strTruthy_eq_false {o : Option String} :
    strTruthy o = false ↔ o = none ∨ o = some "" := by
  cases o with
  | none => simp [strTruthy]
  | some s => simp [strTruthy]

theorem mem_insertByCreatedDesc {a m : Message} {l : List Message} :
    a ∈ insertByCreatedDesc m l ↔ a = m ∨ a ∈ l := by
  induction l with
  | nil => simp [insertByCreatedDesc]
  | cons x xs ih =>
    unfold insertByCreatedDesc
    split
    · simp
    · simp only [List.mem_cons, ih]
      tauto

theorem mem_sortNewestFirst {a : Message} {l : List Message} :
    a ∈ sortNewestFirst l ↔ a ∈ l := by
  induction l with
  | nil => simp [sortNewestFirst]
  | cons x xs ih =>
    unfold sortNewestFirst
    rw [mem_insertByCreatedDesc, List.mem_cons, ih]

/-- A send route succeeds only after the conversation is found, the sender
passes the participant check, the blocked check, and the policy check;
the returned state and payload are then fixed by the built message. -/
theorem send_message_ok (db : DB) (u : User) (md : MessageCreate) (fid : String)
    (now : Nat) (db' : DB) (p : Message) (mid : String)
    (h : send_message db u md fid now = .ok (db', p, mid)) :
    ∃ conv, db.conversations.find? (fun c => c.id == md.conversation_id) = some conv ∧
      (u.id == conv.creator_id || u.id == conv.fan_id) = true ∧
      conv.is_blocked = false ∧
      (can_send_message db u.id (if u.id == conv.creator_id then conv.fan_id
          else conv.creator_id)).1 = true ∧
      db' = persistMessage db md.conversation_id (builtMessage u conv md fid now) now ∧
      p = sendPayload (builtMessage u conv md fid now) ∧
      mid = fid := by
  unfold send_message at h
  cases hfind : db.conversations.find? (fun c => c.id == md.conversation_id) with
  | none => rw [hfind] at h; exact Except.noConfusion h
  | some conv =>
    rw [hfind] at h
    by_cases h1 : (u.id == conv.creator_id || u.id == conv.fan_id) = true
    case neg =>
      simp only [Bool.not_eq_true] at h1
      simp [h1] at h
    case pos =>
      by_cases h2 : conv.is_blocked = true
      · simp [h1, h2] at h
      · simp only [Bool.not_eq_true] at h2
        by_cases h3 : (can_send_message db u.id (if u.id == conv.creator_id
            then conv.fan_id else conv.creator_id)).1 = true
        · simp only [h1, h2, h3, Bool.not_true, Bool.false_eq_true, if_false,
            Bool.not_false, if_true, Except.ok.injEq, Prod.mk.injEq] at h
          obtain ⟨hdb, hp, hmid⟩ := h
          exact ⟨conv, rfl, h1, h2, h3, hdb.symm, hp.symm, hmid.symm⟩
        · simp only [Bool.not_eq_true, beq_iff_eq] at h3
          simp [h1, h2, h3] at h

/-- An upload route succeeds only after the conversation is found and the
sender passes the participant check (file-type and size checks aside);
no blocked-conversation or policy check appears among the conditions. -/
theorem upload_message_file_ok (db : DB) (u : User) (cid mt : String)
    (ppv : Bool) (price : Option Rat) (prev : Option String)
    (adm : Option Nat) (f : FileUpload) (ffid fmid : String) (now : Nat)
    (db' : DB) (p : Message) (mid : String)
    (h : upload_message_file db u cid mt ppv price prev adm f ffid fmid now =
      .ok (db', p, mid)) :
    ∃ conv, db.conversations.find? (fun c => c.id == cid) = some conv ∧
      (u.id == conv.creator_id || u.id == conv.fan_id) = true ∧
      allowed_file_type mt f.content_type = true ∧
      ¬(f.data.length > 50 * 1024 * 1024) ∧
      db' = persistMessage { db with blobs := db.blobs ++ [(ffid, f)] } cid
        (builtUploadMessage u conv cid mt ppv price prev adm f ffid fmid now) now ∧
      p = builtUploadMessage u conv cid mt ppv price prev adm f ffid fmid now ∧
      mid = fmid := by
  unfold upload_message_file at h
  cases hfind : db.conversations.find? (fun c => c.id == cid) with
  | none => rw [hfind] at h; exact Except.noConfusion h
  | some conv =>
    rw [hfind] at h
    by_cases h1 : (u.id == conv.creator_id || u.id == conv.fan_id) = true
    case neg =>
      simp only [Bool.not_eq_true] at h1
      simp [h1] at h
    case pos =>
      by_cases h2 : allowed_file_type mt f.content_type = true
      case neg =>
        simp only [Bool.not_eq_true] at h2
        simp [h1, h2] at h
      case pos =>
        by_cases h3 : f.data.length > 50 * 1024 * 1024
        · simp [h1, h2, h3] at h
        · simp only [h1, h2, h3, Bool.not_true, Bool.false_eq_true, if_false,
            Bool.not_false, if_true, if_neg h3, Except.ok.injEq, Prod.mk.injEq] at h
          obtain ⟨hdb, hp, hmid⟩ := h
          exact ⟨conv, rfl, h1, h2, h3, hdb.symm, hp.symm, hmid.symm⟩

/-- A successful message listing is the paginated newest-first window,
redacted and reversed. -/
theorem get_conversation_messages_ok (db : DB) (cid : String) (skip limit : Nat)
    (u : User) (now : Nat) (msgs : List Message) (db' : DB)
    (h : get_conversation_messages db cid skip limit u now = .ok (msgs, db')) :
    msgs = ((((sortNewestFirst (db.messages.filter
        (fun m => m.conversation_id == cid))).drop skip).take
          limit).map redactMessage).reverse := by
  unfold get_conversation_messages at h
  cases hfind : db.conversations.find? (fun c => c.id == cid) with
  | none => rw [hfind] at h; exact Except.noConfusion h
  | some conv =>
    rw [hfind] at h
    by_cases h1 : (u.id == conv.creator_id || u.id == conv.fan_id) = true
    case neg =>
      simp only [Bool.not_eq_true] at h1
      simp [h1] at h
    case pos =>
      simp only [h1, Bool.not_true, Bool.false_eq_true, if_false,
        Except.ok.injEq, Prod.mk.injEq] at h
      exact h.1.symm

/-- The shape every persisted message has (established by the two send
routes): flagged encrypted exactly when it carries the process key and a
token produced under it; unencrypted content is never a token. -/
def StoredWF (m : Message) : Prop :=
  (m.is_encrypted = true → m.encryption_key = some ENCRYPTION_KEY ∧
    ∃ p, m.content = some (MsgStr.tok ENCRYPTION_KEY p)) ∧
  (m.is_encrypted = false → ∀ k p, m.content ≠ some (MsgStr.tok k p))

/-- Redacting a well-formed stored message strips the key and replaces an
encrypted body with its plaintext; the result never contains a token. -/
theorem redactMessage_wf {sm : Message} (hwf : StoredWF sm) :
    (redactMessage sm).encryption_key = none ∧
    (sm.is_encrypted = true → ∃ p, sm.content = some (MsgStr.tok ENCRYPTION_KEY p) ∧
      (redactMessage sm).content = some (MsgStr.raw p)) ∧
    (∀ k p, (redactMessage sm).content ≠ some (MsgStr.tok k p)) := by
  unfold redactMessage
  cases henc : sm.is_encrypted with
  | true =>
    obtain ⟨hkey, p, hcont⟩ := hwf.1 henc
    refine ⟨rfl, ?_, ?_⟩
    · intro _
      refine ⟨p, hcont, ?_⟩
      simp [hkey, hcont, strTruthy, contentTruthy, decrypt_message,
        (by decide : (ENCRYPTION_KEY == "") = false)]
    · intro k q
      simp [hkey, hcont, strTruthy, contentTruthy, decrypt_message,
        (by decide : (ENCRYPTION_KEY == "") = false)]
  | false =>
    refine ⟨rfl, by simp [henc], ?_⟩
    intro k q
    simpa [henc] using hwf.2 henc k q

/-- The realtime payload built from a sent message never exposes the key
and carries the decrypted plaintext of a non-empty text body. -/
theorem sendPayload_builtMessage (u : User) (conv : Conversation)
    (md : MessageCreate) (fid : String) (now : Nat) :
    (sendPayload (builtMessage u conv md fid now)).encryption_key = none ∧
    (∀ s, md.content = some s → s ≠ "" →
      (sendPayload (builtMessage u conv md fid now)).content = some (MsgStr.raw s)) := by
  by_cases ht : strTruthy md.content = true
  · obtain ⟨s, hs, hne⟩ := strTruthy_eq_true.mp ht
    constructor
    · simp [sendPayload, builtMessage, ht, hs, hne, encrypt_message, strTruthy,
        (by decide : (ENCRYPTION_KEY == "") = false)]
    · intro s' hs' _
      rw [hs] at hs'
      injection hs' with hss
      subst hss
      simp [sendPayload, builtMessage, ht, hs, hne, encrypt_message, strTruthy,
        decrypt_message, (by decide : (ENCRYPTION_KEY == "") = false)]
  · simp only [Bool.not_eq_true] at ht
    have hcases := strTruthy_eq_false.mp ht
    constructor
    · rcases hcases with hc | hc <;>
        simp [sendPayload, builtMessage, hc, strTruthy]
    · intro s hs hne
      rcases hcases with hc | hc <;> rw [hc] at hs
      · exact Option.noConfusion hs
      · injection hs with hss
        exact absurd hss.symm hne

/-- Field values of the message record built by the text-send route. -/
theorem builtMessage_fields (u : User) (conv : Conversation)
    (md : MessageCreate) (fid : String) (now : Nat) :
    (builtMessage u conv md fid now).id = fid ∧
    (strTruthy md.content = true →
      (builtMessage u conv md fid now).content =
        some (MsgStr.tok ENCRYPTION_KEY (md.content.getD "")) ∧
      (builtMessage u conv md fid now).is_encrypted = true ∧
      (builtMessage u conv md fid now).encryption_key = some ENCRYPTION_KEY) ∧
    (strTruthy md.content = false →
      (builtMessage u conv md fid now).content = md.content.map MsgStr.raw ∧
      (builtMessage u conv md fid now).is_encrypted = false ∧
      (builtMessage u conv md fid now).encryption_key = none) := by
  refine ⟨rfl, ?_, ?_⟩
  · intro ht
    simp [builtMessage, ht, encrypt_message]
  · intro ht
    simp [builtMessage, ht]

/-! ### Witness fixtures for the send route -/

/-- `conv1` after `send_message` stamps `last_message_at := 10`. -/
def conv1after : Conversation := ⟨"c1", "cr", "fan", false, none, some 10, 0⟩

/-- The stored record of `cr` sending `mdText` at time 10. -/
def msg7 : Message := ⟨"m7", "c1", "cr", "creator", "text",
  some (MsgStr.tok ENCRYPTION_KEY "hello"), none, none, none, false, none,
  none, false, none, false, true, some ENCRYPTION_KEY, none, 10, none⟩

/-- The store after `cr` sends `mdText` in `dbSend` at time 10. -/
def dbSent7 : DB := ⟨[uCr, uFan], [], [], [], [conv1after], [msg7], [], [], []⟩

/-- The realtime payload of that send: decrypted content, key stripped. -/
def payload7 : Message := ⟨"m7", "c1", "cr", "creator", "text",
  some (MsgStr.raw "hello"), none, none, none, false, none, none, false,
  none, false, true, none, none, 10, none⟩

/-- Concrete evaluation of the send route on `dbSend`. -/
theorem send7_eq : send_message dbSend uCr mdText "m7" 10 =
    .ok (dbSent7, payload7, "m7") := by decide

/-! ### The claims -/

/-- C1.  The claim says a message whose `auto_destruct_at` lies in the past
is excluded from `listMessages` and denied on file retrieval for every
requester.  The code has no expiry check at all: in `dbC1` the message
`m1` expired at instant 5, yet at read time 1000 the fan — a participant
who already paid — still receives it from the listing and the file route
still serves its blob. -/
theorem c1_expired_message_still_served :
    m1.auto_destruct_at = some 5 ∧ 5 < 1000 ∧
    paidC1.payment_status = "paid" ∧
    (listedMessages (get_conversation_messages dbC1 "c1" 0 50 uFan 1000)).any
      (fun m => m.id == "m1") = true ∧
    (get_message_file dbC1 "m1" uFan).toOption = some file1 := by
  refine ⟨rfl, by decide, rfl, ?_, ?_⟩ <;> decide

/-- C2.  The claim says unlock confirmation flips the pending
`MessagePayment` to `paid` and stamps `paid_at`.  In `dbC2` the provider
reports session `s1` paid, but both confirmation paths (the status poll
and the webhook) leave the `MessagePayment` record untouched — still
`pending`, `paid_at` still absent — because `process_successful_payment`
only handles the `subscription` transaction type. -/
theorem c2_confirmation_never_marks_unlock_paid :
    pay1.payment_status = "pending" ∧ pay1.paid_at = none ∧
    tx1.transaction_type = "message_ppv" ∧
    paymentsAfter (get_payment_status dbC2 "s1" "paid" 100 "sub1") = [pay1] ∧
    paymentsAfter (stripe_webhook dbC2 "checkout.session.completed" "s1" 100 "sub2") =
      [pay1] := by
  refine ⟨rfl, rfl, rfl, ?_, ?_⟩ <;> decide

/-- C3 counterexample.  Both `alice` and `bob` are creators; `alice`
creates a conversation with `bob`, then `bob` calls the same operation
with `alice`: role assignment follows only the recipient's creator flag,
so the second call computes the swapped `(creator_id, fan_id)` pair,
misses the existing record, and creates a second conversation with a
different id. -/
theorem c3_counterexample_both_creators :
    uA.is_creator = true ∧ uB.is_creator = true ∧
    (match create_conversation dbC3 uA "bob" "cx1" 0 with
     | .ok (db1, cid1, e1) =>
       match create_conversation db1 uB "alice" "cx2" 1 with
       | .ok (_, cid2, e2) => !e1 && !e2 && !(cid1 == cid2)
       | .error _ => false
     | .error _ => false) = true := by
  refine ⟨rfl, rfl, ?_⟩
  decide

/-- C3 (amended).  When exactly one of the two users is a creator, the
create/get operation is idempotent across both call directions: after any
successful first call, the opposite party's call returns the same
conversation id with the `exists` flag set and leaves the store
unchanged. -/
theorem c3_idempotent_when_one_creator (db : DB) (a b : User) (fid : String)
    (now : Nat) (fid2 : String) (now2 : Nat) (db1 : DB) (cid : String) (ex : Bool)
    (ha : db.users.find? (fun u => u.id == a.id) = some a)
    (hb : db.users.find? (fun u => u.id == b.id) = some b)
    (hne : a.id ≠ b.id)
    (hxor : a.is_creator = !b.is_creator)
    (h1 : create_conversation db a b.id fid now = .ok (db1, cid, ex)) :
    create_conversation db1 b a.id fid2 now2 = .ok (db1, cid, true) := by
  have eba : (b.id == a.id) = false := by
    simp only [beq_eq_false_iff_ne, ne_eq]
    exact fun hh => hne hh.symm
  unfold create_conversation at h1 ⊢
  rw [eba] at h1
  simp only [Bool.false_eq_true, if_false] at h1
  rw [hb] at h1
  cases hcb : b.is_creator with
  | true =>
    rw [hcb] at hxor
    simp only [Bool.not_true] at hxor
    simp only [hcb, if_true] at h1
    cases hfind : db.conversations.find? (fun c =>
        c.creator_id == b.id && c.fan_id == a.id) with
    | some existing =>
      rw [hfind] at h1
      simp only [Except.ok.injEq, Prod.mk.injEq] at h1
      obtain ⟨hdb1, hcid, hex⟩ := h1
      subst hdb1
      simp [hne, ha, hxor, hfind, hcid]
    | none =>
      rw [hfind] at h1
      by_cases hcs : (can_send_message db a.id b.id).1 = true
      · simp only [hcs, Bool.not_true, Bool.false_eq_true, if_false,
          Except.ok.injEq, Prod.mk.injEq] at h1
        obtain ⟨hdb1, hcid, hex⟩ := h1
        subst hdb1
        simp [hne, ha, hxor, List.find?_append, hfind, hcid]
      · simp only [Bool.not_eq_true] at hcs
        simp [hcs] at h1
  | false =>
    rw [hcb] at hxor
    simp only [Bool.not_false] at hxor
    simp only [hcb, Bool.false_eq_true, if_false] at h1
    cases hfind : db.conversations.find? (fun c =>
        c.creator_id == a.id && c.fan_id == b.id) with
    | some existing =>
      rw [hfind] at h1
      simp only [Except.ok.injEq, Prod.mk.injEq] at h1
      obtain ⟨hdb1, hcid, hex⟩ := h1
      subst hdb1
      simp [hne, ha, hxor, hfind, hcid]
    | none =>
      rw [hfind] at h1
      by_cases hcs : (can_send_message db a.id b.id).1 = true
      · simp only [hcs, Bool.not_true, Bool.false_eq_true, if_false,
          Except.ok.injEq, Prod.mk.injEq] at h1
        obtain ⟨hdb1, hcid, hex⟩ := h1
        subst hdb1
        simp [hne, ha, hxor, List.find?_append, hfind, hcid]
      · simp only [Bool.not_eq_true] at hcs
        simp [hcs] at h1

/-- C3 witness: the fan opens the existing conversation with the creator,
then the creator's opposite-direction call returns the same id. -/
theorem c3_witness :
    create_conversation dbSend uCr uFan.id "w2" 5 = .ok (dbSend, "c1", true) :=
  c3_idempotent_when_one_creator dbSend uFan uCr "w1" 0 "w2" 5 dbSend "c1" true
    (by decide) (by decide) (by decide) (by decide) (by decide)

/-- C4 counterexample.  In `dbC4` the only conversation is blocked: the
text send is denied with the blocked-conversation error, but the media
upload on the same conversation by the same sender succeeds. -/
theorem c4_counterexample_upload_bypasses_block :
    convB.is_blocked = true ∧
    resultErr (send_message dbC4 uFan mdText "m9" 10) =
      some (.forbidden "Conversation is blocked") ∧
    sendOk (upload_message_file dbC4 uFan "c1" "image" false none none none
      file1 "f9" "m9" 10) = true := by
  refine ⟨rfl, ?_, ?_⟩ <;> decide

/-- C4 (amended).  The text send succeeds only after the sender passes the
participant check, the blocked-conversation check, and the policy
re-check; the media upload validates only that the sender is a
participant and performs no blocked or policy check. -/
theorem c4_send_validates_upload_skips :
    (∀ db u md fid now db' p mid,
      send_message db u md fid now = .ok (db', p, mid) →
      ∃ conv, db.conversations.find? (fun c => c.id == md.conversation_id) =
          some conv ∧
        (u.id == conv.creator_id || u.id == conv.fan_id) = true ∧
        conv.is_blocked = false ∧
        (can_send_message db u.id (if u.id == conv.creator_id then conv.fan_id
            else conv.creator_id)).1 = true) ∧
    (∀ db u cid mt ppv price prev adm f ffid fmid now db' p mid,
      upload_message_file db u cid mt ppv price prev adm f ffid fmid now =
        .ok (db', p, mid) →
      ∃ conv, db.conversations.find? (fun c => c.id == cid) = some conv ∧
        (u.id == conv.creator_id || u.id == conv.fan_id) = true) := by
  constructor
  · intro db u md fid now db' p mid h
    obtain ⟨conv, h1, h2, h3, h4, _⟩ := send_message_ok db u md fid now db' p mid h
    exact ⟨conv, h1, h2, h3, h4⟩
  · intro db u cid mt ppv price prev adm f ffid fmid now db' p mid h
    obtain ⟨conv, h1, h2, _⟩ :=
      upload_message_file_ok db u cid mt ppv price prev adm f ffid fmid now db' p mid h
    exact ⟨conv, h1, h2⟩

/-- C4 witness: a successful concrete send, with its checks recovered. -/
theorem c4_witness :
    ∃ conv, dbSend.conversations.find?
        (fun c => c.id == mdText.conversation_id) = some conv ∧
      (uCr.id == conv.creator_id || uCr.id == conv.fan_id) = true ∧
      conv.is_blocked = false ∧
      (can_send_message dbSend uCr.id (if uCr.id == conv.creator_id
          then conv.fan_id else conv.creator_id)).1 = true :=
  c4_send_validates_upload_skips.1 dbSend uCr mdText "m7" 10 dbSent7 payload7
    "m7" send7_eq

/-- C5.  PPV gating of the file route: with the message, conversation,
and blob on record and the requester a participant, the sender always
receives the blob; any other requester is denied with `PaymentRequired`
while no `paid` `MessagePayment` row for `(message_id, requester)`
exists, and receives the blob once one does. -/
theorem c5_ppv_file_gating (db : DB) (mid : String) (u : User) (m : Message)
    (conv : Conversation) (fp : String) (b : String × FileUpload)
    (hm : db.messages.find? (fun x => x.id == mid) = some m)
    (hppv : m.is_ppv = true)
    (hconv : db.conversations.find? (fun c => c.id == m.conversation_id) = some conv)
    (hpart : (u.id == conv.creator_id || u.id == conv.fan_id) = true)
    (hfp : m.file_path = some fp)
    (hblob : db.blobs.find? (fun x => x.1 == fp) = some b) :
    (m.sender_id = u.id → get_message_file db mid u = .ok b.2) ∧
    (m.sender_id ≠ u.id →
      (db.message_payments.find? (fun p => p.message_id == mid &&
          p.payer_id == u.id && p.payment_status == "paid") = none →
        get_message_file db mid u =
          .error (.paymentRequired "Payment required to view this content")) ∧
      (∀ pay, db.message_payments.find? (fun p => p.message_id == mid &&
          p.payer_id == u.id && p.payment_status == "paid") = some pay →
        get_message_file db mid u = .ok b.2)) := by
  unfold get_message_file
  rw [hm]
  simp only [hconv]
  refine ⟨?_, ?_⟩
  · intro hsend
    simp [hpart, hppv, hsend, hfp, hblob]
  · intro hsend
    constructor
    · intro hnone
      simp [hpart, hppv, Ne.symm hsend, hnone, beq_iff_eq]
      intro hcon
      exact absurd hcon hsend
    · intro pay hpay
      simp [hpart, hppv, hpay, hfp, hblob]

/-- C5 witness: on the concrete PPV store, the sender gets the blob, the
fan is denied before paying and served after the record reaches paid. -/
theorem c5_witness :
    get_message_file dbC5 "m5" uCr = .ok file1 ∧
    get_message_file dbC5 "m5" uFan =
      .error (.paymentRequired "Payment required to view this content") ∧
    get_message_file dbC5p "m5" uFan = .ok file1 := by
  refine ⟨?_, ?_, ?_⟩
  · exact (c5_ppv_file_gating dbC5 "m5" uCr m5 conv1 "f1" ("f1", file1)
      (by decide) rfl (by decide) (by decide) rfl (by decide)).1 rfl
  · exact ((c5_ppv_file_gating dbC5 "m5" uFan m5 conv1 "f1" ("f1", file1)
      (by decide) rfl (by decide) (by decide) rfl (by decide)).2
      (by decide)).1 (by decide)
  · exact ((c5_ppv_file_gating dbC5p "m5" uFan m5 conv1 "f1" ("f1", file1)
      (by decide) rfl (by decide) (by decide) rfl (by decide)).2
      (by decide)).2 paid5 (by decide)

/-- C6.  The policy check equals the spec's first-applicable-rule cascade:
blocked conversation, then messaging disabled, then sender in the
creator's block list, then subscription required, else allow — with the
code's reason strings standing in for the spec's enum. -/
theorem c6_can_send_rule_order (db : DB) (s r : String) :
    can_send_message db s r = canSendSpec db s r := by
  unfold can_send_message canSendSpec recipientSettings activeSubscription
  cases hc : db.creators.find? (fun c => c.user_id == r) with
  | none => simp [hc]
  | some creator =>
    cases hs : db.conversation_settings.find? (fun st => st.creator_id == creator.id) with
    | none => simp [hc, hs]
    | some settings => simp [hc, hs]

/-- C7.  No key material leaves the server and encrypted text is replaced
by its plaintext: every message returned by the listing has its
`encryption_key` entry removed, never contains a ciphertext token, and is
the redaction of a stored message whose encrypted body it carries
decrypted; the realtime payload of the text send strips the key and
carries the decrypted body; the upload payload carries no key and no
content. -/
theorem c7_no_key_material :
    (∀ db cid skip limit u now msgs db',
      (∀ m ∈ db.messages, StoredWF m) →
      get_conversation_messages db cid skip limit u now = .ok (msgs, db') →
      ∀ m ∈ msgs, m.encryption_key = none ∧
        (∀ k p, m.content ≠ some (MsgStr.tok k p)) ∧
        ∃ sm, sm ∈ db.messages ∧ m = redactMessage sm ∧
          (sm.is_encrypted = true →
            ∃ p, sm.content = some (MsgStr.tok ENCRYPTION_KEY p) ∧
              m.content = some (MsgStr.raw p))) ∧
    (∀ db u md fid now db' p mid,
      send_message db u md fid now = .ok (db', p, mid) →
      p.encryption_key = none ∧
      ∀ s, md.content = some s → s ≠ "" → p.content = some (MsgStr.raw s)) ∧
    (∀ db u cid mt ppv price prev adm f ffid fmid now db' p mid,
      upload_message_file db u cid mt ppv price prev adm f ffid fmid now =
        .ok (db', p, mid) →
      p.encryption_key = none ∧ p.content = none) := by
  refine ⟨?_, ?_, ?_⟩
  · intro db cid skip limit u now msgs db' hwf h m hm
    have hmsgs := get_conversation_messages_ok db cid skip limit u now msgs db' h
    subst hmsgs
    rw [List.mem_reverse] at hm
    obtain ⟨sm, hsmmem, hsm⟩ := List.mem_map.mp hm
    have hsmdb : sm ∈ db.messages := by
      have h1 := List.mem_of_mem_take hsmmem
      have h2 := List.mem_of_mem_drop h1
      have h3 := mem_sortNewestFirst.mp h2
      exact (List.mem_filter.mp h3).1
    have hw := redactMessage_wf (hwf sm hsmdb)
    subst hsm
    exact ⟨hw.1, hw.2.2, sm, hsmdb, rfl, hw.2.1⟩
  · intro db u md fid now db' p mid h
    obtain ⟨conv, _, _, _, _, _, hp, _⟩ := send_message_ok db u md fid now db' p mid h
    subst hp
    exact ⟨(sendPayload_builtMessage u conv md fid now).1,
           (sendPayload_builtMessage u conv md fid now).2⟩
  · intro db u cid mt ppv price prev adm f ffid fmid now db' p mid h
    obtain ⟨conv, _, _, _, _, _, hp, _⟩ :=
      upload_message_file_ok db u cid mt ppv price prev adm f ffid fmid now db' p mid h
    subst hp
    exact ⟨rfl, rfl⟩

/-- C7 witness: the concrete send payload has no key and plain content. -/
theorem c7_witness :
    payload7.encryption_key = none ∧ payload7.content = some (MsgStr.raw "hello") := by
  have h := c7_no_key_material.2.1 dbSend uCr mdText "m7" 10 dbSent7 payload7
    "m7" send7_eq
  exact ⟨h.1, h.2 "hello" rfl (by decide)⟩

/-- C8.  Round trip: decrypting what `encrypt_message` produced, under the
returned key, recovers the plaintext; and on any ciphertext/key pair that
is not a well-formed token under that key, `decrypt_message` returns the
sentinel string — it is a total function, so no exception escapes. -/
theorem c8_roundtrip_and_fail_closed :
    (∀ P : String, decrypt_message (encrypt_message P).1 (encrypt_message P).2 = P) ∧
    (∀ (c : MsgStr) (key : String), (∀ p, c ≠ MsgStr.tok key p) →
      decrypt_message c key = "[Message could not be decrypted]") := by
  constructor
  · intro P
    simp [encrypt_message, decrypt_message]
  · intro c key h
    cases c with
    | raw s => rfl
    | tok k p =>
      have hk : (k == key) = false := by
        cases hkk : (k == key) with
        | true => exact absurd (by rw [eq_of_beq hkk]) (h p)
        | false => rfl
      simp [decrypt_message, hk]

/-- C8 witness: a concrete round trip and a concrete corrupted input. -/
theorem c8_witness :
    decrypt_message (encrypt_message "hello").1 (encrypt_message "hello").2 =
      "hello" ∧
    decrypt_message (MsgStr.raw "corrupted") ENCRYPTION_KEY =
      "[Message could not be decrypted]" :=
  ⟨c8_roundtrip_and_fail_closed.1 "hello",
   c8_roundtrip_and_fail_closed.2 (MsgStr.raw "corrupted") ENCRYPTION_KEY
     (fun _ hp => MsgStr.noConfusion hp)⟩

/-- C9.  The claim says the send fails with a validation error whenever
`is_ppv` is set without a positive `ppv_price`.  No such validation
exists: the request `mdPPV` (`is_ppv = true`, `ppv_price = none`) is
accepted and the message is persisted with that combination. -/
theorem c9_ppv_without_price_accepted :
    mdPPV.is_ppv = true ∧ mdPPV.ppv_price = none ∧
    sendOk (send_message dbSend uFan mdPPV "m9" 10) = true ∧
    (sentMessages (send_message dbSend uFan mdPPV "m9" 10)).any
      (fun m => m.id == "m9" && m.is_ppv && m.ppv_price.isNone) = true := by
  refine ⟨rfl, rfl, ?_, ?_⟩ <;> decide

/-- C10.  A message persisted by the text send is flagged encrypted with
the process key recorded exactly when the request carried non-empty text
content; every message persisted by the upload route is unencrypted with
no key and no content, and its blob is stored verbatim. -/
theorem c10_encryption_exactly_for_text :
    (∀ db u md fid now db' p mid,
      send_message db u md fid now = .ok (db', p, mid) →
      ∃ m, db'.messages = db.messages ++ [m] ∧ m.id = fid ∧
        ((∃ s, md.content = some s ∧ s ≠ "" ∧ m.is_encrypted = true ∧
           m.encryption_key = some ENCRYPTION_KEY ∧
           m.content = some (MsgStr.tok ENCRYPTION_KEY s)) ∨
         ((md.content = none ∨ md.content = some "") ∧ m.is_encrypted = false ∧
           m.encryption_key = none))) ∧
    (∀ db u cid mt ppv price prev adm f ffid fmid now db' p mid,
      upload_message_file db u cid mt ppv price prev adm f ffid fmid now =
        .ok (db', p, mid) →
      ∃ m, db'.messages = db.messages ++ [m] ∧ m.id = fmid ∧
        m.is_encrypted = false ∧ m.encryption_key = none ∧ m.content = none ∧
        db'.blobs = db.blobs ++ [(ffid, f)]) := by
  constructor
  · intro db u md fid now db' p mid h
    obtain ⟨conv, _, _, _, _, hdb, _, _⟩ := send_message_ok db u md fid now db' p mid h
    subst hdb
    refine ⟨builtMessage u conv md fid now, rfl,
      (builtMessage_fields u conv md fid now).1, ?_⟩
    by_cases ht : strTruthy md.content = true
    · left
      obtain ⟨s, hs, hne⟩ := strTruthy_eq_true.mp ht
      obtain ⟨hc, he, hk⟩ := (builtMessage_fields u conv md fid now).2.1 ht
      refine ⟨s, hs, hne, he, hk, ?_⟩
      rw [hc, hs]
      rfl
    · right
      simp only [Bool.not_eq_true] at ht
      obtain ⟨hc, he, hk⟩ := (builtMessage_fields u conv md fid now).2.2 ht
      exact ⟨strTruthy_eq_false.mp ht, he, hk⟩
  · intro db u cid mt ppv price prev adm f ffid fmid now db' p mid h
    obtain ⟨conv, _, _, _, _, hdb, _, _⟩ :=
      upload_message_file_ok db u cid mt ppv price prev adm f ffid fmid now db' p mid h
    subst hdb
    exact ⟨builtUploadMessage u conv cid mt ppv price prev adm f ffid fmid now,
      rfl, rfl, rfl, rfl, rfl, rfl⟩

/-- C10 witness: the concrete send persisted one encrypted message. -/
theorem c10_witness :
    ∃ m, dbSent7.messages = dbSend.messages ++ [m] ∧ m.id = "m7" ∧
      ((∃ s, mdText.content = some s ∧ s ≠ "" ∧ m.is_encrypted = true ∧
         m.encryption_key = some ENCRYPTION_KEY ∧
         m.content = some (MsgStr.tok ENCRYPTION_KEY s)) ∨
       ((mdText.content = none ∨ mdText.content = some "") ∧
         m.is_encrypted = false ∧ m.encryption_key = none)) :=
  c10_encryption_exactly_for_text.1 dbSend uCr mdText "m7" 10 dbSent7 payload7
    "m7" send7_eq

end Platform
